import Mathlib

/-!
Shallow embedding of the microVM lifecycle orchestrator `Vm::make`
(src/src/lib.rs) of the firecracker-spawn repository, together with proofs
about its device-assembly and supervise-loop behaviour.

Modelling conventions:
* Rust `String`/`PathBuf` become Lean `String`.
* A MAC address `[u8; 6]` becomes a `List Nat` of six bytes.
* File handles (`File`) are opaque numeric descriptors; `try_clone` is
  modelled as always succeeding (no claim concerns handle duplication
  failures).
* The external firecracker engine (builders, event manager, microvm
  construction, instance lock, exit status) is an oracle `Env` supplied to
  `Vm.make`; the embedding records exactly how the source reacts to each
  oracle answer (`?` propagation vs `.unwrap()` panic).
-/

namespace FirecrackerSpawn

/-- Rust struct `Disk` (src/src/lib.rs lines 19-23). -/
structure Disk where
  path : String
  read_only : Bool
deriving DecidableEq

/-- Rust struct `NetConfig` (src/src/lib.rs lines 25-31): TAP interface name
and optional 6-byte MAC address. -/
structure NetConfig where
  tap_iface_name : String
  vm_mac : Option (List Nat)
deriving DecidableEq

/-- Rust struct `Vm` (src/src/lib.rs lines 33-44). `kernel` and `initrd` are
opaque handle identifiers. -/
structure Vm where
  vcpu_count : Nat
  mem_size_mib : Nat
  kernel : Nat
  kernel_cmdline : String
  vsock : Option String
  initrd : Option Nat
  rootfs : Option Disk
  extra_disks : List Disk
  net_config : Option NetConfig
  use_hugepages : Bool
deriving DecidableEq

/-- `vmm::vmm_config::machine_config::HugePageConfig`, restricted to the two
variants the source selects between (lines 61-65). -/
inductive HugePageConfig where
  | None
  | Hugetlbfs2M
deriving DecidableEq

/-- `vmm::vmm_config::machine_config::VmConfig`, the fields set at
src/src/lib.rs lines 55-66 (`cpu_template` is always `None` there and is kept
as a unit option). -/
structure VmConfig where
  vcpu_count : Nat
  mem_size_mib : Nat
  smt : Bool
  cpu_template : Option Unit
  track_dirty_pages : Bool
  huge_pages : HugePageConfig
deriving DecidableEq

/-- The `vm_config` value built at src/src/lib.rs lines 55-66. -/
def mkVmConfig (v : Vm) : VmConfig :=
  { vcpu_count := v.vcpu_count
    mem_size_mib := v.mem_size_mib
    smt := false
    cpu_template := none
    track_dirty_pages := false
    huge_pages :=
      if v.use_hugepages then HugePageConfig.Hugetlbfs2M
      else HugePageConfig.None }

/-- `vmm::devices::virtio::block::CacheType`. -/
inductive CacheType where
  | Writeback
  | Unsafe
deriving DecidableEq

/-- `vmm::vmm_config::drive::BlockDeviceConfig`, the fields the source sets
(lines 101-113 and 119-131); fields that are always `None` are kept as unit
options. -/
structure BlockDeviceConfig where
  drive_id : String
  partuuid : Option String
  is_root_device : Bool
  cache_type : CacheType
  is_read_only : Option Bool
  path_on_host : Option String
deriving DecidableEq

/-- `vmm::vmm_config::net::NetworkInterfaceConfig`, the fields set at
src/src/lib.rs lines 85-91. -/
structure NetworkInterfaceConfig where
  iface_id : String
  host_dev_name : String
  guest_mac : Option (List Nat)
deriving DecidableEq

/-- `vmm::vmm_config::vsock::VsockDeviceConfig`, the fields set at
src/src/lib.rs lines 137-141. -/
structure VsockDeviceConfig where
  vsock_id : Option String
  guest_cid : Nat
  uds_path : String
deriving DecidableEq

/-- MAC resolution at src/src/lib.rs line 83:
`nc.vm_mac.unwrap_or([0x0, 0x2, 0x0, 0x0, 0x0, 0x0])`. -/
def resolveMac (vm_mac : Option (List Nat)) : List Nat :=
  vm_mac.getD [0x0, 0x2, 0x0, 0x0, 0x0, 0x0]

/-- The network interface configurations handed to `NetBuilder::build`
(src/src/lib.rs lines 80-95): one entry with id `net0` when `net_config` is
present, none otherwise. -/
def netConfigs (v : Vm) : List NetworkInterfaceConfig :=
  match v.net_config with
  | some nc =>
      [{ iface_id := "net0"
         host_dev_name := nc.tap_iface_name
         guest_mac := some (resolveMac nc.vm_mac) }]
  | none => []

/-- The root block configuration handed to `BlockBuilder::insert`
(src/src/lib.rs lines 99-115): id `block0`, root flag set, cache `Unsafe`. -/
def rootBlockConfigs (v : Vm) : List BlockDeviceConfig :=
  match v.rootfs with
  | some rootfs =>
      [{ drive_id := "block0"
         partuuid := none
         is_root_device := true
         cache_type := CacheType.Unsafe
         is_read_only := some rootfs.read_only
         path_on_host := some rootfs.path }]
  | none => []

/-- One secondary block configuration from the loop at src/src/lib.rs lines
117-133; the drive id is `format!("block\x7b\x7d", i + 0)`. -/
def extraBlockConfig (i : Nat) (disk : Disk) : BlockDeviceConfig :=
  { drive_id := "block" ++ toString (i + 0)
    partuuid := none
    is_root_device := false
    cache_type := CacheType.Unsafe
    is_read_only := some disk.read_only
    path_on_host := some disk.path }

/-- The secondary block configurations from
`for (i, disk) in self.extra_disks.iter().enumerate()` with counter `i`
starting at `i0` (the source starts at 0). -/
def extraBlockConfigs (disks : List Disk) (i0 : Nat) : List BlockDeviceConfig :=
  match disks with
  | [] => []
  | d :: rest => extraBlockConfig i0 d :: extraBlockConfigs rest (i0 + 1)

/-- All block configurations handed to `BlockBuilder::insert`, in source
order: the root disk entry (if any), then the secondary entries. -/
def blockConfigs (v : Vm) : List BlockDeviceConfig :=
  rootBlockConfigs v ++ extraBlockConfigs v.extra_disks 0

/-- The vsock configurations handed to `VsockBuilder::insert`
(src/src/lib.rs lines 135-143): one entry with `guest_cid = 3` when
`vsock` is present, none otherwise. -/
def vsockConfigs (v : Vm) : List VsockDeviceConfig :=
  match v.vsock with
  | some vpath => [{ vsock_id := none, guest_cid := 3, uds_path := vpath }]
  | none => []

/-- `vmm::FcExitCode` as the source inspects it (lines 168-175): the clean
code `Ok` versus any other code. -/
inductive FcExitCode where
  | Ok
  | Other (code : Nat)
deriving DecidableEq

/-- Errors that `make` returns through `?` (its `Result` error channel):
the cmdline rejection from `Cmdline::try_from` (line 74), an engine error
from `build_microvm_for_boot` (line 158), or a `resume_vm` error
(line 165). -/
inductive MakeError where
  | cmdline
  | engine (msg : String)
  | resume (msg : String)
deriving DecidableEq

/-- Observable outcome of one `make` call. `ok printedGuestDied` is the Rust
return value `Ok(())`, with the flag recording whether the `vm died??` line
was printed first; `error e` is `Err(e)`; `panic` is a `.unwrap()` on a
failed external call; `outOfFuel` is the modelling artifact of truncating
the unbounded supervise loop. -/
inductive Outcome where
  | ok (printedGuestDied : Bool)
  | error (e : MakeError)
  | panic
  | outOfFuel
deriving DecidableEq

/-- The Rust return value (of type `Result<(), Box<dyn Error>>`) carried by
an outcome: `none` when the call does not return at all (panic or still
looping). The printed-line flag is not part of the return value. -/
def Outcome.returnValue : Outcome → Option (Except MakeError Unit)
  | .ok _ => some (Except.ok ())
  | .error e => some (Except.error e)
  | .panic => none
  | .outOfFuel => none

/-- Whether the outcome is a returned error. -/
def Outcome.isErr : Outcome → Bool
  | .error _ => true
  | _ => false

/-- Result of `make` together with whether `build_microvm_for_boot` (the
engine construction entry point) was ever invoked. -/
structure MakeRun where
  outcome : Outcome
  engineInvoked : Bool
deriving DecidableEq

/-- Oracle for the external firecracker engine: the verdict of each builder
call, of `EventManager::new`, of `build_microvm_for_boot`, of `resume_vm`,
and the per-iteration behaviour of the supervise loop (`emRun k` is the
k-th `event_manager.run()`, `loopLock k` the k-th loop acquisition of the
instance lock, `exitCode k` the k-th `shutdown_exit_code()` answer). -/
structure Env where
  netBuild : NetworkInterfaceConfig → Except String Unit
  blockInsert : BlockDeviceConfig → Except String Unit
  vsockInsert : VsockDeviceConfig → Except String Unit
  eventManagerNew : Except String Unit
  buildMicrovm : Except String Unit
  resumeLock : Bool
  resumeVm : Except String Unit
  emRun : Nat → Except String Unit
  loopLock : Nat → Bool
  exitCode : Nat → Option FcExitCode

/-- Whether an external call succeeded. -/
def isOkE : Except String Unit → Bool
  | Except.ok _ => true
  | Except.error _ => false

/-- Modelled from the spec: `linux_loader::cmdline::Cmdline::try_from`
(external crate, called at src/src/lib.rs line 74 with capacity 4096)
rejects a command line longer than 4096 bytes with a configuration error. -/
def cmdlineTryFrom (s : String) (capacity : Nat) : Except MakeError String :=
  if capacity < s.length then Except.error MakeError.cmdline
  else Except.ok s

/-- The supervise loop at src/src/lib.rs lines 166-176, iteration index `i`,
truncated at `fuel` iterations. Each iteration runs
`event_manager.run().unwrap()` (panic on failure), then
`vm.lock().unwrap()` (panic on failure), then matches
`shutdown_exit_code()`: `Some(Ok)` breaks with a plain `Ok(())`, any other
`Some` prints `vm died??` and returns `Ok(())`, `None` continues. -/
def superviseLoop (env : Env) : Nat → Nat → Outcome
  | 0, _ => Outcome.outOfFuel
  | fuel + 1, i =>
    match env.emRun i with
    | Except.error _ => Outcome.panic
    | Except.ok _ =>
      if env.loopLock i then
        match env.exitCode i with
        | some FcExitCode.Ok => Outcome.ok false
        | some _ => Outcome.ok true
        | none => superviseLoop env fuel (i + 1)
      else Outcome.panic

/-- `Vm::make` (src/src/lib.rs lines 47-178) in source order: cmdline
parsing (error propagated with `?`), the three device builders (each
`.unwrap()`ed, so a rejection panics before the engine is invoked),
`EventManager::new().unwrap()`, `build_microvm_for_boot` (`?`),
`vm.lock().unwrap().resume_vm()?`, then the supervise loop. File-handle
cloning (`try_clone`, lines 69 and 75) is modelled as always succeeding. -/
def Vm.make (v : Vm) (env : Env) (fuel : Nat) : MakeRun :=
  match cmdlineTryFrom v.kernel_cmdline 4096 with
  | Except.error _ => ⟨Outcome.error MakeError.cmdline, false⟩
  | Except.ok _ =>
    if (netConfigs v).all (fun c => isOkE (env.netBuild c)) = false then
      ⟨Outcome.panic, false⟩
    else if (blockConfigs v).all (fun c => isOkE (env.blockInsert c)) = false then
      ⟨Outcome.panic, false⟩
    else if (vsockConfigs v).all (fun c => isOkE (env.vsockInsert c)) = false then
      ⟨Outcome.panic, false⟩
    else if isOkE env.eventManagerNew = false then
      ⟨Outcome.panic, false⟩
    else
      match env.buildMicrovm with
      | Except.error e => ⟨Outcome.error (MakeError.engine e), true⟩
      | Except.ok _ =>
        if env.resumeLock = false then ⟨Outcome.panic, true⟩
        else
          match env.resumeVm with
          | Except.error e => ⟨Outcome.error (MakeError.resume e), true⟩
          | Except.ok _ => ⟨superviseLoop env fuel 0, true⟩

/-! ### Fixtures -/

/-- Minimal spec fixture: no optional devices, short command line. -/
def vm0 : Vm :=
  { vcpu_count := 1
    mem_size_mib := 32
    kernel := 0
    kernel_cmdline := "quiet panic=-1 reboot=t init=/goinit"
    vsock := none
    initrd := none
    rootfs := none
    extra_disks := []
    net_config := none
    use_hugepages := false }

/-- Fixture with a root disk and one secondary disk. -/
def c1Vm : Vm :=
  { vm0 with
    rootfs := some { path := "rootfs.ext4", read_only := false }
    extra_disks := [{ path := "disk1.img", read_only := true }] }

/-- Fixture with a network device and no explicit MAC. -/
def c2Vm : Vm :=
  { vm0 with net_config := some { tap_iface_name := "tap0", vm_mac := none } }

/-- Fixture with a 4097-byte command line. -/
def c6Vm : Vm := { vm0 with kernel_cmdline := String.mk (List.replicate 4097 'x') }

/-- Oracle where every external call succeeds and the guest exits cleanly
at the first status check. -/
def envOk : Env :=
  { netBuild := fun _ => Except.ok ()
    blockInsert := fun _ => Except.ok ()
    vsockInsert := fun _ => Except.ok ()
    eventManagerNew := Except.ok ()
    buildMicrovm := Except.ok ()
    resumeLock := true
    resumeVm := Except.ok ()
    emRun := fun _ => Except.ok ()
    loopLock := fun _ => true
    exitCode := fun _ => some FcExitCode.Ok }

/-- Oracle where the guest dies abnormally at the first status check. -/
def envDied : Env := { envOk with exitCode := fun _ => some (FcExitCode.Other 1) }

/-- Oracle whose block builder rejects every configuration. -/
def envBlockRej : Env :=
  { envOk with blockInsert := fun _ => Except.error "duplicate id" }

/-- Oracle whose blocking event-dispatch wait fails at every iteration. -/
def envEmFail : Env :=
  { envOk with emRun := fun _ => Except.error "event dispatch failed" }

/-- Oracle whose instance lock cannot be acquired inside the loop. -/
def envLockFail : Env := { envOk with loopLock := fun _ => false }

/-! ### Device-assembly lemmas -/

/-- The secondary block entries pass each disk's `read_only` flag through
unchanged, in order. -/
theorem extraBlockConfigs_map_read_only (disks : List Disk) (i0 : Nat) :
    (extraBlockConfigs disks i0).map (fun b => b.is_read_only)
      = disks.map (fun d => some d.read_only) := by
  induction disks generalizing i0 with
  | nil => rfl
  | cons d rest ih => simp [extraBlockConfigs, extraBlockConfig, ih]

/-- Every secondary block entry uses `CacheType.Unsafe`. -/
theorem extraBlockConfigs_cache (disks : List Disk) (i0 : Nat) :
    ∀ b ∈ extraBlockConfigs disks i0, b.cache_type = CacheType.Unsafe := by
  induction disks generalizing i0 with
  | nil => intro b hb; cases hb
  | cons d rest ih =>
    intro b hb
    rcases List.mem_cons.mp hb with hb | hb
    · subst hb; rfl
    · exact ih (i0 + 1) b hb

/-- The root block entry (when present) uses `CacheType.Unsafe`. -/
theorem rootBlockConfigs_cache (v : Vm) :
    ∀ b ∈ rootBlockConfigs v, b.cache_type = CacheType.Unsafe := by
  intro b hb
  cases hr : v.rootfs with
  | none => simp [rootBlockConfigs, hr] at hb
  | some d =>
    simp only [rootBlockConfigs, hr, List.mem_singleton] at hb
    subst hb; rfl

/-! ### Claim theorems: device assembly -/

/-- C1 (code evaluation at the failing input): with a root disk and one
secondary disk, the drive ids handed to `BlockBuilder::insert` are
`block0` and `block0` again — the loop at src/src/lib.rs line 120 computes
`format!("block\x7b\x7d", i + 0)`, so the first secondary disk collides
with the root id instead of receiving `block1` as the claim states. -/
theorem c1_block_ids_at_failing_input :
    (blockConfigs c1Vm).map (fun b => b.drive_id) = ["block0", "block0"]
    ∧ ¬ (blockConfigs c1Vm).map (fun b => b.drive_id) = ["block0", "block1"] := by
  decide

/-- C2 counterexample: with `vm_mac = None` the MAC placed in the network
entry is `00:02:00:00:00:00` (bytes `[0x0, 0x2, 0, 0, 0, 0]`, line 83), not
`02:00:00:00:00:00` as the claim states. -/
theorem c2_default_mac_counterexample :
    (netConfigs c2Vm).map (fun c => c.guest_mac)
      = [some [0x00, 0x02, 0x00, 0x00, 0x00, 0x00]]
    ∧ ¬ (netConfigs c2Vm).map (fun c => c.guest_mac)
      = [some [0x02, 0x00, 0x00, 0x00, 0x00, 0x00]] := by
  decide

/-- C2 (amended): for every spec with `net_config` present and
`vm_mac = None`, the MAC placed in the network device entry equals
`00:02:00:00:00:00`. -/
theorem c2_default_mac (v : Vm) (nc : NetConfig)
    (h1 : v.net_config = some nc) (h2 : nc.vm_mac = none) :
    (netConfigs v).map (fun c => c.guest_mac)
      = [some [0x00, 0x02, 0x00, 0x00, 0x00, 0x00]] := by
  simp [netConfigs, h1, resolveMac, h2]

/-- Witness for `c2_default_mac` at the concrete fixture `c2Vm`. -/
theorem c2_default_mac_witness :
    c2Vm.net_config = some { tap_iface_name := "tap0", vm_mac := none }
    ∧ (netConfigs c2Vm).map (fun c => c.guest_mac)
      = [some [0x00, 0x02, 0x00, 0x00, 0x00, 0x00]] :=
  ⟨rfl, c2_default_mac c2Vm { tap_iface_name := "tap0", vm_mac := none } rfl rfl⟩

/-- C7: every block entry produced by device assembly (root and secondary
alike) carries `CacheType.Unsafe`, for every spec. -/
theorem c7_cache_type_all_blocks (v : Vm) :
    (blockConfigs v).all (fun b => decide (b.cache_type = CacheType.Unsafe)) = true := by
  rw [List.all_eq_true]
  intro b hb
  rw [decide_eq_true_eq]
  rcases List.mem_append.mp hb with hb | hb
  · exact rootBlockConfigs_cache v b hb
  · exact extraBlockConfigs_cache v.extra_disks 0 b hb

/-- C8: device assembly emits exactly one vsock entry, with guest context
id 3, when `vsock` is present, and none when it is absent. -/
theorem c8_vsock_entry (v : Vm) :
    (vsockConfigs v).length = (if v.vsock.isSome then 1 else 0)
    ∧ (vsockConfigs v).map (fun c => c.guest_cid)
        = (if v.vsock.isSome then [3] else []) := by
  cases hv : v.vsock <;> simp [vsockConfigs, hv]

/-- C9: the `read_only` flag of every emitted block entry (root and
secondary alike) equals the `read_only` flag of the corresponding input
`Disk`, in order, with no flipping. -/
theorem c9_read_only_passthrough (v : Vm) :
    (blockConfigs v).map (fun b => b.is_read_only)
      = (v.rootfs.toList ++ v.extra_disks).map (fun d => some d.read_only) := by
  cases hr : v.rootfs <;>
    simp [blockConfigs, rootBlockConfigs, hr, extraBlockConfigs_map_read_only]

/-- C10: the machine configuration's memory backing is 2 MiB hugetlbfs huge
pages exactly when `use_hugepages` is true, and no huge pages exactly when
it is false. -/
theorem c10_hugepages_policy (v : Vm) :
    ((mkVmConfig v).huge_pages = HugePageConfig.Hugetlbfs2M ↔ v.use_hugepages = true)
    ∧ ((mkVmConfig v).huge_pages = HugePageConfig.None ↔ v.use_hugepages = false) := by
  cases hu : v.use_hugepages <;> simp [mkVmConfig, hu]

/-! ### Supervise-loop lemmas -/

/-- If iterations `i..n-1` wait, lock and see no exit status, and iteration
`n` waits, locks and sees status `some c`, the loop returns `Ok(())`, with
the `vm died??` line printed exactly when the code is not clean. -/
theorem superviseLoop_exit (env : Env) :
    ∀ (fuel i n : Nat) (c : FcExitCode), i ≤ n → n < i + fuel →
      (∀ k, i ≤ k → k < n →
        env.emRun k = Except.ok () ∧ env.loopLock k = true ∧ env.exitCode k = none) →
      env.emRun n = Except.ok () → env.loopLock n = true →
      env.exitCode n = some c →
      superviseLoop env fuel i = Outcome.ok (decide (¬ c = FcExitCode.Ok)) := by
  intro fuel
  induction fuel with
  | zero => intro i n c hin hfuel _ _ _ _; omega
  | succ fuel ih =>
    intro i n c hin hfuel hgood hrun hlock hexit
    rcases Nat.eq_or_lt_of_le hin with heq | hlt
    · subst heq
      rw [superviseLoop, hrun, hlock, hexit]
      cases c <;> simp
    · obtain ⟨hrunI, hlockI, hexitI⟩ := hgood i (Nat.le_refl i) hlt
      rw [superviseLoop, hrunI, hlockI, hexitI]
      exact ih (i + 1) n c hlt (by omega)
        (fun k hk1 hk2 => hgood k (by omega) hk2) hrun hlock hexit

/-- If iterations `i..n-1` wait, lock and see no exit status, and at
iteration `n` the blocking wait fails, or the wait succeeds but the
instance lock cannot be acquired, the loop ends in a panic (the source
calls `.unwrap()` on both). -/
theorem superviseLoop_fail (env : Env) :
    ∀ (fuel i n : Nat), i ≤ n → n < i + fuel →
      (∀ k, i ≤ k → k < n →
        env.emRun k = Except.ok () ∧ env.loopLock k = true ∧ env.exitCode k = none) →
      ((∃ msg, env.emRun n = Except.error msg)
        ∨ (env.emRun n = Except.ok () ∧ env.loopLock n = false)) →
      superviseLoop env fuel i = Outcome.panic := by
  intro fuel
  induction fuel with
  | zero => intro i n hin hfuel _ _; omega
  | succ fuel ih =>
    intro i n hin hfuel hgood hfail
    rcases Nat.eq_or_lt_of_le hin with heq | hlt
    · subst heq
      rcases hfail with ⟨msg, hmsg⟩ | ⟨hrun, hlock⟩
      · rw [superviseLoop, hmsg]
      · rw [superviseLoop, hrun, hlock]
        simp
    · obtain ⟨hrunI, hlockI, hexitI⟩ := hgood i (Nat.le_refl i) hlt
      rw [superviseLoop, hrunI, hlockI, hexitI]
      exact ih (i + 1) n hlt (by omega)
        (fun k hk1 hk2 => hgood k (by omega) hk2) hfail

/-- When the cmdline fits, every builder call is accepted, and event-manager
creation, engine construction, the pre-resume lock and `resume_vm` all
succeed, `make` reaches the supervise loop with the engine invoked. -/
theorem make_runs_loop (v : Vm) (env : Env) (fuel : Nat)
    (hcmd : ¬ 4096 < v.kernel_cmdline.length)
    (hnet : (netConfigs v).all (fun c => isOkE (env.netBuild c)) = true)
    (hblk : (blockConfigs v).all (fun c => isOkE (env.blockInsert c)) = true)
    (hvs : (vsockConfigs v).all (fun c => isOkE (env.vsockInsert c)) = true)
    (hem : isOkE env.eventManagerNew = true)
    (hbuild : env.buildMicrovm = Except.ok ())
    (hrl : env.resumeLock = true)
    (hres : env.resumeVm = Except.ok ()) :
    Vm.make v env fuel = ⟨superviseLoop env fuel 0, true⟩ := by
  simp [Vm.make, cmdlineTryFrom, hcmd, hnet, hblk, hvs, hem, hbuild, hrl, hres]

/-! ### Claim theorems: boot and supervise -/

/-- C3 counterexample: at a clean-exit run and at an abnormal-exit run the
Rust return value of `make` is the same `Ok(())` (src/src/lib.rs lines
169-173: both `break` and the `vm died??` branch end in `Ok(())`), so the
result does not let the caller distinguish them, even though the two runs
differ (only) in the printed output. -/
theorem c3_result_counterexample :
    Outcome.returnValue (Vm.make vm0 envDied 1).outcome
      = Outcome.returnValue (Vm.make vm0 envOk 1).outcome
    ∧ Outcome.returnValue (Vm.make vm0 envOk 1).outcome = some (Except.ok ())
    ∧ ¬ (Vm.make vm0 envOk 1).outcome = (Vm.make vm0 envDied 1).outcome := by
  refine ⟨rfl, rfl, by decide⟩

/-- C3 (amended): a supervised run ends with the same returned success
value `Ok(())` for a clean exit and for an abnormal exit; the two are
distinguished only by the `vm died??` console message (the printed flag),
not by the result, and neither is an orchestrator error. -/
theorem c3_result_amended (v : Vm) (env : Env) (fuel n : Nat) (c : FcExitCode)
    (hcmd : ¬ 4096 < v.kernel_cmdline.length)
    (hnet : (netConfigs v).all (fun c => isOkE (env.netBuild c)) = true)
    (hblk : (blockConfigs v).all (fun c => isOkE (env.blockInsert c)) = true)
    (hvs : (vsockConfigs v).all (fun c => isOkE (env.vsockInsert c)) = true)
    (hem : isOkE env.eventManagerNew = true)
    (hbuild : env.buildMicrovm = Except.ok ())
    (hrl : env.resumeLock = true)
    (hres : env.resumeVm = Except.ok ())
    (hgood : ∀ k, k < n →
      env.emRun k = Except.ok () ∧ env.loopLock k = true ∧ env.exitCode k = none)
    (hrun : env.emRun n = Except.ok ()) (hlock : env.loopLock n = true)
    (hexit : env.exitCode n = some c) (hfuel : n < fuel) :
    Vm.make v env fuel = ⟨Outcome.ok (decide (¬ c = FcExitCode.Ok)), true⟩
    ∧ Outcome.returnValue (Vm.make v env fuel).outcome = some (Except.ok ()) := by
  have h1 : Vm.make v env fuel = ⟨superviseLoop env fuel 0, true⟩ :=
    make_runs_loop v env fuel hcmd hnet hblk hvs hem hbuild hrl hres
  have h2 : superviseLoop env fuel 0 = Outcome.ok (decide (¬ c = FcExitCode.Ok)) :=
    superviseLoop_exit env fuel 0 n c (Nat.zero_le n) (by omega)
      (fun k hk1 hk2 => hgood k hk2) hrun hlock hexit
  refine ⟨by rw [h1, h2], ?_⟩
  rw [h1]
  dsimp only
  rw [h2]
  rfl

/-- Witness for `c3_result_amended`: the abnormal-exit oracle yields the
outcome `ok` with the printed flag set, whose return value is `Ok(())`. -/
theorem c3_result_amended_witness :
    envDied.exitCode 0 = some (FcExitCode.Other 1)
    ∧ Vm.make vm0 envDied 1 = ⟨Outcome.ok true, true⟩
    ∧ Outcome.returnValue (Vm.make vm0 envDied 1).outcome = some (Except.ok ()) := by
  have h := c3_result_amended vm0 envDied 1 0 (FcExitCode.Other 1)
    (by decide) rfl rfl rfl rfl rfl rfl rfl
    (fun k hk => absurd hk (Nat.not_lt_zero k)) rfl rfl rfl (by decide)
  exact ⟨rfl, h.1, h.2⟩

/-- C4 counterexample: with an oracle whose block builder rejects its
configuration, `make` at a spec with a root disk ends in a panic (the
`.unwrap()` at src/src/lib.rs line 114), not in a returned configuration
error. -/
theorem c4_builder_rejection_counterexample :
    (blockConfigs c1Vm).all (fun c => isOkE (envBlockRej.blockInsert c)) = false
    ∧ Vm.make c1Vm envBlockRej 1 = ⟨Outcome.panic, false⟩
    ∧ Outcome.isErr (Vm.make c1Vm envBlockRej 1).outcome = false := by
  refine ⟨rfl, by decide, by decide⟩

/-- C4 (amended): when any device builder call (network build, block
insert, or vsock insert) rejects its configuration, `make` aborts by panic
before the engine construction entry point is invoked; the rejection is
not masked (nothing proceeds past it), but it is not returned to the
caller as a configuration error either. -/
theorem c4_builder_rejection_amended (v : Vm) (env : Env) (fuel : Nat)
    (hcmd : ¬ 4096 < v.kernel_cmdline.length)
    (hrej : ((netConfigs v).all (fun c => isOkE (env.netBuild c))
          && (blockConfigs v).all (fun c => isOkE (env.blockInsert c))
          && (vsockConfigs v).all (fun c => isOkE (env.vsockInsert c))) = false) :
    Vm.make v env fuel = ⟨Outcome.panic, false⟩
    ∧ Outcome.isErr (Vm.make v env fuel).outcome = false := by
  have hmk : Vm.make v env fuel = ⟨Outcome.panic, false⟩ := by
    cases hn : (netConfigs v).all (fun c => isOkE (env.netBuild c)) with
    | false => simp [Vm.make, cmdlineTryFrom, hcmd, hn]
    | true =>
      cases hb : (blockConfigs v).all (fun c => isOkE (env.blockInsert c)) with
      | false => simp [Vm.make, cmdlineTryFrom, hcmd, hn, hb]
      | true =>
        cases hk : (vsockConfigs v).all (fun c => isOkE (env.vsockInsert c)) with
        | false => simp [Vm.make, cmdlineTryFrom, hcmd, hn, hb, hk]
        | true => simp [hn, hb, hk] at hrej
  exact ⟨hmk, by rw [hmk]; rfl⟩

/-- Witness for `c4_builder_rejection_amended` at the concrete fixture:
the block builder rejects, and `make` panics without invoking the
engine. -/
theorem c4_builder_rejection_amended_witness :
    (blockConfigs c1Vm).all (fun c => isOkE (envBlockRej.blockInsert c)) = false
    ∧ Vm.make c1Vm envBlockRej 1 = ⟨Outcome.panic, false⟩
    ∧ Outcome.isErr (Vm.make c1Vm envBlockRej 1).outcome = false := by
  have h := c4_builder_rejection_amended c1Vm envBlockRej 1 (by decide) (by decide)
  exact ⟨rfl, h.1, h.2⟩

/-- C5 counterexample: when the blocking event-dispatch wait fails, and
when the in-loop instance lock cannot be acquired, `make` ends in a panic
(the `.unwrap()`s at src/src/lib.rs lines 167-168), not in an error
returned to the caller. -/
theorem c5_loop_failure_counterexample :
    (Vm.make vm0 envEmFail 1).outcome = Outcome.panic
    ∧ Outcome.isErr (Vm.make vm0 envEmFail 1).outcome = false
    ∧ (Vm.make vm0 envLockFail 1).outcome = Outcome.panic
    ∧ Outcome.isErr (Vm.make vm0 envLockFail 1).outcome = false := by
  refine ⟨by decide, by decide, by decide, by decide⟩

/-- C5 (amended): during the supervise loop, a failure of the blocking
event-dispatch wait, or a failure to acquire the instance lock, is fatal
to the call with no retry — but it aborts `make` by panic; it is not
returned to the caller as an error. -/
theorem c5_loop_failure_amended (v : Vm) (env : Env) (fuel n : Nat)
    (hcmd : ¬ 4096 < v.kernel_cmdline.length)
    (hnet : (netConfigs v).all (fun c => isOkE (env.netBuild c)) = true)
    (hblk : (blockConfigs v).all (fun c => isOkE (env.blockInsert c)) = true)
    (hvs : (vsockConfigs v).all (fun c => isOkE (env.vsockInsert c)) = true)
    (hem : isOkE env.eventManagerNew = true)
    (hbuild : env.buildMicrovm = Except.ok ())
    (hrl : env.resumeLock = true)
    (hres : env.resumeVm = Except.ok ())
    (hgood : ∀ k, k < n →
      env.emRun k = Except.ok () ∧ env.loopLock k = true ∧ env.exitCode k = none)
    (hfail : (∃ msg, env.emRun n = Except.error msg)
      ∨ (env.emRun n = Except.ok () ∧ env.loopLock n = false))
    (hfuel : n < fuel) :
    (Vm.make v env fuel).outcome = Outcome.panic
    ∧ Outcome.isErr (Vm.make v env fuel).outcome = false := by
  have h1 : Vm.make v env fuel = ⟨superviseLoop env fuel 0, true⟩ :=
    make_runs_loop v env fuel hcmd hnet hblk hvs hem hbuild hrl hres
  have h2 : superviseLoop env fuel 0 = Outcome.panic :=
    superviseLoop_fail env fuel 0 n (Nat.zero_le n) (by omega)
      (fun k hk1 hk2 => hgood k hk2) hfail
  constructor
  · rw [h1]; exact h2
  · rw [h1]; dsimp only; rw [h2]; rfl

/-- Witness for `c5_loop_failure_amended`: the failing event-dispatch
oracle makes `make` panic rather than return an error. -/
theorem c5_loop_failure_amended_witness :
    envEmFail.emRun 0 = Except.error "event dispatch failed"
    ∧ (Vm.make vm0 envEmFail 1).outcome = Outcome.panic
    ∧ Outcome.isErr (Vm.make vm0 envEmFail 1).outcome = false := by
  have h := c5_loop_failure_amended vm0 envEmFail 1 0
    (by decide) rfl rfl rfl rfl rfl rfl rfl
    (fun k hk => absurd hk (Nat.not_lt_zero k))
    (Or.inl ⟨"event dispatch failed", rfl⟩) (by decide)
  exact ⟨rfl, h.1, h.2⟩

/-- C6: for every spec whose `kernel_cmdline` is longer than 4096 bytes,
`make` returns the configuration error from cmdline parsing (propagated
with `?` at src/src/lib.rs line 74), raised during resource-bundle
assembly, and the engine construction entry point is never invoked. -/
theorem c6_cmdline_too_long (v : Vm) (env : Env) (fuel : Nat)
    (h : 4096 < v.kernel_cmdline.length) :
    Vm.make v env fuel = ⟨Outcome.error MakeError.cmdline, false⟩ := by
  simp [Vm.make, cmdlineTryFrom, h]

/-- Witness for `c6_cmdline_too_long` at the 4097-byte fixture. -/
theorem c6_cmdline_too_long_witness :
    4096 < c6Vm.kernel_cmdline.length
    ∧ Vm.make c6Vm envOk 1 = ⟨Outcome.error MakeError.cmdline, false⟩ := by
  have h : 4096 < c6Vm.kernel_cmdline.length := by
    show 4096 < (List.replicate 4097 'x').length
    rw [List.length_replicate]
    omega
  exact ⟨h, c6_cmdline_too_long c6Vm envOk 1 h⟩

end FirecrackerSpawn
